import Mathlib

/-!
Shallow embedding of the score-aggregation and filtering core of the
AmericanPizzaProject repository (src/app_streamlit), together with theorems
settling the frozen claims about it.

Tabular data is embedded as lists of records; pandas null cells are Option
values; numeric quantities (scores, prevalences) are rationals, abstracting
IEEE floats to exact arithmetic (every concrete value appearing in the
claims is exactly representable, and no claim is about rounding).
-/

namespace Pizza

/-! ## Python string primitives

Lean core string functions such as String.trim and String.splitOn recurse on
byte positions, which the kernel cannot evaluate definitionally, so the
Python string operations used by the source are embedded structurally on
character lists. -/

/-- Characters stripped by the Python str.strip() with no arguments. -/
def pyWhitespace : List Char := [' ', '\t', '\n', '\r', '\x0b', '\x0c']

/-- Drop characters belonging to cs from both ends of a character list
(the behaviour of Python str.strip(chars)). -/
def stripChars (cs : List Char) (l : List Char) : List Char :=
  ((l.dropWhile (cs.contains ·)).reverse.dropWhile (cs.contains ·)).reverse

/-- Python str.strip() with no arguments: trim ASCII whitespace at both ends. -/
def pyStrip (s : String) : String :=
  String.mk (stripChars pyWhitespace s.toList)

/-- Python str.strip(chars) with an explicit character set. -/
def pyStripSet (cs : List Char) (s : String) : String :=
  String.mk (stripChars cs s.toList)

/-- Split a character list at newline characters; "".split produces one empty
piece, matching Python str.split with an explicit separator. -/
def splitNlAux : List Char → List (List Char)
  | [] => [[]]
  | c :: cs =>
    if c = '\n' then [] :: splitNlAux cs
    else
      match splitNlAux cs with
      | [] => [[c]]
      | p :: ps => (c :: p) :: ps

/-- Python s.split for the newline separator, as used by the highlight
normalizer. -/
def splitLines (s : String) : List String :=
  (splitNlAux s.toList).map String.mk

/-- Python " ".join over a list of strings. -/
def spaceJoin : List String → String
  | [] => ""
  | [x] => x
  | x :: xs => x ++ " " ++ spaceJoin xs

/-! ## Data model (src/app_streamlit/data_processor.py)

One Participant Record per spreadsheet row.  Every demographic and response
cell other than the participant identifier may be null in pandas, hence the
Option types; cell contents are strings except for the integer age column. -/

/-- The demographic columns of the dataset (DEMO_COLS in data_processor.py). -/
def DEMO_COLS : List String :=
  ["participant_id", "age", "city_of_residence", "state_of_residence",
   "region_of_residence", "income", "pizza_consumption", "food_restrictions"]

/-- The five response columns (RESPONSE_COLS in data_processor.py). -/
def RESPONSE_COLS : List String :=
  ["q1_response", "q2_response", "q3_response", "q4_response", "q5_response"]

/-- A Participant Record: one row of the loaded spreadsheet. -/
structure Row where
  participant_id : String
  age : Option Int
  city_of_residence : Option String
  state_of_residence : Option String
  region_of_residence : Option String
  income : Option String
  pizza_consumption : Option String
  food_restrictions : Option String
  q1_response : Option String
  q2_response : Option String
  q3_response : Option String
  q4_response : Option String
  q5_response : Option String
deriving DecidableEq

/-- The pandas Series.isin membership test applied to one cell: a null cell
is never a member of the given list of acceptable values. -/
def isinOpt [BEq α] (v : Option α) (crit : List α) : Bool :=
  match v with
  | some x => crit.contains x
  | none => false

/-- Python truthiness of an optional criterion list: None and the empty list
are falsy, so they impose no restriction in filter_by_demographics. -/
def truthy (crit : Option (List α)) : Bool :=
  match crit with
  | some (_ :: _) => true
  | _ => false

/-- One conditional filtering stage of filter_by_demographics: the
statement "if crit: sub = sub[sub[col].isin(crit)]". -/
def applyCrit [BEq β] (attr : Row → Option β) (crit : Option (List β))
    (l : List Row) : List Row :=
  if truthy crit then l.filter (fun r => isinOpt (attr r) (crit.getD [])) else l

/-- filter_by_demographics from data_processor.py: four successive optional
isin filters over a copy of the input frame, in source order (regions, ages,
incomes, diets). -/
def filter_by_demographics (df : List Row)
    (regions : Option (List String)) (ages : Option (List Int))
    (incomes : Option (List String)) (diets : Option (List String)) : List Row :=
  applyCrit (fun r => r.food_restrictions) diets
    (applyCrit (fun r => r.income) incomes
      (applyCrit (fun r => r.age) ages
        (applyCrit (fun r => r.region_of_residence) regions df)))

/-- Whether one cell satisfies one optional criterion: a falsy (absent or
empty) criterion imposes no restriction, a supplied non-empty criterion
requires isin membership. -/
def passesCrit [BEq β] (v : Option β) (crit : Option (List β)) : Bool :=
  if truthy crit then isinOpt v (crit.getD []) else true

/-- Column lookup for df[q] restricted to the response columns, as used by
build_text_df after validation. -/
def getResponse (r : Row) (q : String) : Option String :=
  if q = "q1_response" then r.q1_response
  else if q = "q2_response" then r.q2_response
  else if q = "q3_response" then r.q3_response
  else if q = "q4_response" then r.q4_response
  else if q = "q5_response" then r.q5_response
  else none

/-- Text assembly for one row: join the non-null selected cells whose
stripped form is non-blank with single spaces, in selection order, then
strip the result (the lambda plus .str.strip() in build_text_df). -/
def assembleText (r : Row) (valid_qs : List String) : String :=
  pyStrip (spaceJoin ((valid_qs.filterMap (getResponse r)).filter
    (fun s => pyStrip s != "")))

/-- A row of the assembled text frame: the carried-through demographics plus
the new text field. -/
structure TextRow where
  demo : Row
  text : String
deriving DecidableEq

/-- The validated question selection of build_text_df:
[q for q in questions if q in RESPONSE_COLS]. -/
def valid_qs (questions : List String) : List String :=
  questions.filter (fun q => RESPONSE_COLS.contains q)

/-- build_text_df from data_processor.py: validate the question selection
against RESPONSE_COLS (raising ValueError when no selected name is a known
response column), assemble the text per row, and drop rows whose text is
empty. -/
def build_text_df (df : List Row) (questions : List String) :
    Except String (List TextRow) :=
  if (valid_qs questions).isEmpty then
    Except.error "No valid question columns selected."
  else
    Except.ok ((df.map (fun r =>
      { demo := r, text := assembleText r (valid_qs questions) }))
      |>.filter (fun d => d.text != ""))

/-- Document identifier of an assembled row: app.py sets the doc_id column
to the string form of participant_id. -/
def doc_idOf (d : TextRow) : String := d.demo.participant_id

/-! ## Score cells and the match predicate
(src/app_streamlit/theme_analyzer.py lines 46-48, src/app_streamlit/app.py
lines 197-198) -/

/-- A cell of the long-form score column as it arrives from the induction
engine: null, an exact numeric value, or an arbitrary string. -/
inductive Cell where
  | null
  | num (q : ℚ)
  | str (s : String)
deriving DecidableEq

/-- Numeric value of a digit run. -/
def digitsToNat (l : List Char) : ℕ :=
  l.foldl (fun n c => 10 * n + (c.toNat - 48)) 0

/-- Decimal string parsing in the manner of pandas to_numeric: optional
sign, then a plain decimal numeral with at most one point.  Forms the
pipeline never produces (scientific notation, underscores, hex) are not
modelled and coerce to none, exactly as any unparseable string does. -/
def parseDecimal (s : String) : Option ℚ :=
  let l := stripChars pyWhitespace s.toList
  let signed : ℤ × List Char :=
    match l with
    | '-' :: rest => (-1, rest)
    | '+' :: rest => (1, rest)
    | _ => (1, l)
  match (signed.2).span Char.isDigit with
  | (ds, []) =>
    if ds.isEmpty then none else some (mkRat (signed.1 * digitsToNat ds) 1)
  | (ds, '.' :: fs) =>
    if fs.all Char.isDigit && (!ds.isEmpty || !fs.isEmpty) then
      some (mkRat (signed.1 * (digitsToNat ds * 10 ^ fs.length + digitsToNat fs))
        (10 ^ fs.length))
    else none
  | _ => none

/-- pandas pd.to_numeric(cell, errors="coerce"): nulls and unparseable
strings coerce to NaN, embedded as none. -/
def toNumericCell : Cell → Option ℚ
  | Cell.null => none
  | Cell.num q => some q
  | Cell.str s => parseDecimal s

/-- The match predicate: to_numeric(score) >= threshold, where any
comparison against NaN is False (theme_analyzer.py line 46, app.py
line 198). -/
def is_match (threshold : ℚ) (c : Cell) : Bool :=
  match toNumericCell c with
  | some q => threshold ≤ q
  | none => false

/-- One Score Record of the long-form table returned by induction.  Only
the columns the aggregation reads are carried. -/
structure ScoreRec where
  doc_id : String
  concept_id : String
  concept_name : String
  score : Cell
  highlight : Option String
deriving DecidableEq

/-- Concept metadata as consumed by _build_export_from_long.  The name
field holds the resolved display name (the source falls back through
c.get("name"), c.get("concept"), str(cid); the fallback chain itself is
not load-bearing for any claim) and prompt holds c.get("prompt") or "". -/
structure ConceptMeta where
  cid : String
  name : String
  prompt : String
  summary : Option String
deriving DecidableEq

/-- Number of distinct documents in the slice:
score_df[doc_id_col].astype(str).nunique(). -/
def nDocs (sdf : List ScoreRec) : ℕ :=
  ((sdf.map (fun r => r.doc_id)).dedup).length

/-- The sub-frame of one concept: score_df.loc[score_df["concept_id"] == cid]. -/
def conceptSub (sdf : List ScoreRec) (cid : String) : List ScoreRec :=
  sdf.filter (fun r => r.concept_id == cid)

/-- The matching rows of one concept: sub.loc[sub["is_match"]]. -/
def matchingRecs (sdf : List ScoreRec) (t : ℚ) (cid : String) : List ScoreRec :=
  (conceptSub sdf cid).filter (fun r => is_match t r.score)

/-- n_matches of one concept: distinct doc_id count over the matching rows. -/
def conceptMatchCount (sdf : List ScoreRec) (t : ℚ) (cid : String) : ℕ :=
  (((matchingRecs sdf t cid).map (fun r => r.doc_id)).dedup).length

/-- Highlights of one concept: the highlight column of the matching rows
with nulls dropped, truncated to three (dropna keeps empty strings). -/
def conceptHighlights (sdf : List ScoreRec) (t : ℚ) (cid : String) : List String :=
  ((matchingRecs sdf t cid).filterMap (fun r => r.highlight)).take 3

/-- One row of the export summary frame. -/
structure ExportRow where
  concept : String
  criteria : String
  summary : Option String
  prevalence : ℚ
  n_matches : ℕ
  highlights : List String
deriving DecidableEq

/-- The export row of one concept (the rows.append literal in
_build_export_from_long); prevalence is n_matches / n_docs guarded by the
Python truthiness test "if n_docs". -/
def conceptRow (sdf : List ScoreRec) (t : ℚ) (n_docs : ℕ) (c : ConceptMeta) :
    ExportRow :=
  let nm := conceptMatchCount sdf t c.cid
  { concept := c.name, criteria := c.prompt, summary := c.summary,
    prevalence := if n_docs = 0 then 0 else mkRat nm n_docs,
    n_matches := nm,
    highlights := conceptHighlights sdf t c.cid }

/-! ## The pandas descending sort

DataFrame.sort_values(col, ascending=False) goes through nargsort, which
argsorts ascending and then reverses the indexer.  The default "quicksort"
kind degenerates to insertion sort (which is stable) below sixteen
elements, and the UI caps the concept count at ten, so the sort is
embedded as a stable ascending insertion sort followed by reversal. -/

/-- Stable insertion into an ascending-by-key list: the new element goes
before the first element of greater-or-equal key. -/
def stableInsert (key : α → ℕ) (x : α) : List α → List α
  | [] => [x]
  | y :: ys => if key x ≤ key y then x :: y :: ys else y :: stableInsert key x ys

/-- Stable ascending insertion sort by a natural-number key. -/
def stableSortAsc (key : α → ℕ) : List α → List α
  | [] => []
  | x :: xs => stableInsert key x (stableSortAsc key xs)

/-- DataFrame.sort_values(key, ascending=False): ascending stable argsort,
then reversal of the indexer (pandas nargsort). -/
def sort_values_desc (key : α → ℕ) (l : List α) : List α :=
  (stableSortAsc key l).reverse

/-- _build_export_from_long from theme_analyzer.py: one export row per
concept of the metadata mapping in its input order, then
sort_values("n_matches", ascending=False). -/
def _build_export_from_long (sdf : List ScoreRec) (concepts : List ConceptMeta)
    (t : ℚ) : List ExportRow :=
  sort_values_desc (fun r => r.n_matches)
    (concepts.map (conceptRow sdf t (nDocs sdf)))

/-! ## Regional breakdown (src/app_streamlit/app.py lines 216-271) -/

/-- region_map: df_text[["doc_id", "region_of_residence"]].dropna() as
(doc_id, region) pairs; doc_id is never null, so dropna removes exactly the
rows with a null region. -/
def region_map (df_text : List TextRow) : List (String × String) :=
  df_text.filterMap (fun d =>
    (d.demo.region_of_residence).map (fun reg => (doc_idOf d, reg)))

/-- The distinct regions of the slice, i.e. the group keys of
groupby("region_of_residence").  pandas yields the groups sorted by key;
only membership and per-key values matter to the claims, so first-occurrence
order is used. -/
def regionKeys (rm : List (String × String)) : List String :=
  (rm.map (fun p => p.2)).dedup

/-- totals_by_region: distinct document count per region over the full
slice. -/
def totals_by_region (rm : List (String × String)) : List (String × ℕ) :=
  (regionKeys rm).map (fun reg =>
    (reg, ((rm.filter (fun p => p.2 == reg)).map (fun p => p.1)).dedup.length))

/-- One row of the matched frame: the matching score rows inner-joined to
region_map on doc_id. -/
structure MatchedRow where
  doc_id : String
  concept_name : String
  region : String
deriving DecidableEq

/-- matched: score_df.loc[is_match, ["doc_id", "concept_name"]] merged with
region_map on doc_id (inner join, left-row-major order). -/
def matchedFrame (sdf : List ScoreRec) (t : ℚ) (rm : List (String × String)) :
    List MatchedRow :=
  (sdf.filter (fun r => is_match t r.score)).flatMap (fun r =>
    (rm.filter (fun p => p.1 == r.doc_id)).map (fun p =>
      { doc_id := r.doc_id, concept_name := r.concept_name, region := p.2 }))

/-- Regional prevalence cell: float n_matches / n_texts with infinities
replaced by 0 per .replace([float("inf")], 0.0).  A 0/0 would be NaN and is
embedded as none; the theorems show it cannot arise because every region
total is at least 1. -/
def prevOf (nm nt : ℕ) : Option ℚ :=
  if nt = 0 then (if nm = 0 then none else some 0)
  else some (mkRat nm nt)

/-- One row of the per-concept regional table. -/
structure RegionRow where
  region : String
  n_matches : ℕ
  n_texts : ℕ
  prevalence : Option ℚ
deriving DecidableEq

/-- by_region for one concept: per-region distinct matched-document counts,
right-merged onto totals_by_region (every known region appears, missing
counts zero-filled by fillna), prevalence added, then the descending sort on
n_matches. -/
def by_region (sub : List MatchedRow) (totals : List (String × ℕ)) :
    List RegionRow :=
  sort_values_desc (fun row => row.n_matches)
    (totals.map (fun p =>
      let nm := ((sub.filter (fun m => m.region == p.1)).map
        (fun m => m.doc_id)).dedup.length
      { region := p.1, n_matches := nm, n_texts := p.2,
        prevalence := prevOf nm p.2 }))

/-- The Regional Breakdown section of app.py: nothing is rendered when the
matched frame is empty; otherwise the concepts are walked in concept_order
(the export frame order) and a concept whose matched sub-frame is empty is
skipped by the continue statement. -/
def regional_breakdown (sdf : List ScoreRec) (t : ℚ) (df_text : List TextRow)
    (concept_order : List String) : List (String × List RegionRow) :=
  if (matchedFrame sdf t (region_map df_text)).isEmpty then []
  else concept_order.filterMap (fun cname =>
    if ((matchedFrame sdf t (region_map df_text)).filter
        (fun x => x.concept_name == cname)).isEmpty then none
    else some (cname, by_region ((matchedFrame sdf t
      (region_map df_text)).filter (fun x => x.concept_name == cname))
      (totals_by_region (region_map df_text))))

/-! ## Highlight normalization (src/app_streamlit/app.py lines 53-70) -/

/-- A value of the export highlights column as _to_list_like can receive
it: None, a genuine list of strings, or a string. -/
inductive HVal where
  | none
  | list (xs : List String)
  | str (s : String)
deriving DecidableEq

/-- The single-quote character, used by the Python list-literal parser. -/
def sq : Char := Char.ofNat 39

/-- Consume characters up to the next occurrence of q; none if q never
occurs. -/
def takeUntil (q : Char) : List Char → Option (List Char × List Char)
  | [] => Option.none
  | c :: cs =>
    if c = q then some ([], cs)
    else (takeUntil q cs).map (fun p => (c :: p.1, p.2))

/-- Skip blanks inside a list literal. -/
def skipWs (l : List Char) : List Char := l.dropWhile (fun c => c = ' ')

/-- Item loop of the list-literal parser (fuel-driven; the fuel is the
input length, which bounds the number of items). -/
def parseItemsAux : ℕ → List Char → List String → Option (List String)
  | 0, _, _ => Option.none
  | fuel + 1, cs, acc =>
    match skipWs cs with
    | ']' :: rest => if skipWs rest = [] then some acc.reverse else Option.none
    | q :: rest =>
      if q = sq || q = '"' then
        match takeUntil q rest with
        | some (item, rest2) =>
          match skipWs rest2 with
          | ',' :: rest3 => parseItemsAux fuel rest3 (String.mk item :: acc)
          | ']' :: rest3 =>
            if skipWs rest3 = [] then some (String.mk item :: acc).reverse
            else Option.none
          | _ => Option.none
        | Option.none => Option.none
      else Option.none
    | [] => Option.none

/-- ast.literal_eval as the highlights pipeline exercises it: a flat Python
list display of simple (escape-free) quoted string literals evaluates to
the corresponding list; everything else — including non-list literals,
whose parse also falls through to line splitting in the source — yields
none. -/
def literalEvalStrList (s : String) : Option (List String) :=
  match s.toList with
  | '[' :: rest => parseItemsAux (rest.length + 1) rest []
  | _ => Option.none

/-- The character set stripped from each line piece: p.strip(" -•\n\t"). -/
def bulletChars : List Char := [' ', '-', '•', '\n', '\t']

/-- Clean a genuine list: [str(x).strip() for x in val if str(x).strip()][:3]. -/
def cleanList (xs : List String) : List String :=
  ((xs.map pyStrip).filter (fun s => s != "")).take 3

/-- _to_list_like from app.py: None becomes []; a genuine list is cleaned;
a string is stripped, then parsed as a list literal when possible, else
split into lines, the blank lines removed, each piece stripped of bullet
characters, truncated to three. -/
def _to_list_like : HVal → List String
  | HVal.none => []
  | HVal.list xs => cleanList xs
  | HVal.str v =>
    let s := pyStrip v
    match literalEvalStrList s with
    | some xs => cleanList xs
    | Option.none =>
      (((splitLines s).filter (fun p => pyStrip p != "")).map
        (pyStripSet bulletChars)).take 3

/-! ## General lemmas about the embedded operations -/

theorem mkRat_natCast_div (a b : ℕ) : mkRat a b = (a : ℚ) / b := by
  rw [Rat.mkRat_eq_div]
  push_cast
  ring

theorem perm_stableInsert (key : α → ℕ) (x : α) (l : List α) :
    List.Perm (stableInsert key x l) (x :: l) := by
  induction l with
  | nil => exact List.Perm.refl _
  | cons y ys ih =>
    rw [stableInsert]
    split
    · exact List.Perm.refl _
    · exact (ih.cons y).trans (List.Perm.swap x y ys)

theorem perm_stableSortAsc (key : α → ℕ) (l : List α) :
    List.Perm (stableSortAsc key l) l := by
  induction l with
  | nil => exact List.Perm.refl _
  | cons x xs ih => exact (perm_stableInsert key x _).trans (ih.cons x)

theorem perm_sort_values_desc (key : α → ℕ) (l : List α) :
    List.Perm (sort_values_desc key l) l :=
  (List.reverse_perm _).trans (perm_stableSortAsc key l)

theorem mem_sort_values_desc (key : α → ℕ) (l : List α) (a : α) :
    a ∈ sort_values_desc key l ↔ a ∈ l :=
  (perm_sort_values_desc key l).mem_iff

theorem mem_stableInsert (key : α → ℕ) (x a : α) (l : List α) :
    a ∈ stableInsert key x l ↔ a = x ∨ a ∈ l := by
  rw [(perm_stableInsert key x l).mem_iff, List.mem_cons]

theorem pairwise_stableInsert (key : α → ℕ) (x : α) (l : List α)
    (h : l.Pairwise (fun a b => key a ≤ key b)) :
    (stableInsert key x l).Pairwise (fun a b => key a ≤ key b) := by
  induction l with
  | nil => simp [stableInsert]
  | cons y ys ih =>
    rw [List.pairwise_cons] at h
    by_cases hxy : key x ≤ key y
    · rw [stableInsert, if_pos hxy]
      refine List.Pairwise.cons ?_ (List.Pairwise.cons h.1 h.2)
      intro b hb
      rcases List.mem_cons.mp hb with rfl | hb
      · exact hxy
      · exact le_trans hxy (h.1 b hb)
    · rw [stableInsert, if_neg hxy]
      refine List.Pairwise.cons ?_ (ih h.2)
      intro b hb
      rcases (mem_stableInsert key x b ys).mp hb with rfl | hb
      · exact Nat.le_of_not_le hxy
      · exact h.1 b hb

theorem pairwise_stableSortAsc (key : α → ℕ) (l : List α) :
    (stableSortAsc key l).Pairwise (fun a b => key a ≤ key b) := by
  induction l with
  | nil => simp [stableSortAsc]
  | cons x xs ih => exact pairwise_stableInsert key x _ ih

theorem pairwise_sort_values_desc (key : α → ℕ) (l : List α) :
    (sort_values_desc key l).Pairwise (fun a b => key b ≤ key a) := by
  rw [sort_values_desc, List.pairwise_reverse]
  exact pairwise_stableSortAsc key l

theorem filter_stableInsert (key : α → ℕ) (k : ℕ) (x : α) (l : List α) :
    (stableInsert key x l).filter (fun a => key a == k) =
      if key x = k then x :: l.filter (fun a => key a == k)
      else l.filter (fun a => key a == k) := by
  induction l with
  | nil => by_cases h : key x = k <;> simp [stableInsert, h]
  | cons y ys ih =>
    by_cases hxy : key x ≤ key y
    · rw [stableInsert, if_pos hxy]
      by_cases h : key x = k <;> simp [List.filter_cons, h]
    · rw [stableInsert, if_neg hxy]
      have hyx : key y < key x := Nat.lt_of_not_le hxy
      by_cases h : key x = k
      · have hy : (key y == k) = false := by
          refine beq_eq_false_iff_ne.mpr ?_
          omega
        simp [List.filter_cons, ih, h, hy]
      · simp [List.filter_cons, ih, h]

theorem filter_stableSortAsc (key : α → ℕ) (k : ℕ) (l : List α) :
    (stableSortAsc key l).filter (fun a => key a == k) =
      l.filter (fun a => key a == k) := by
  induction l with
  | nil => rfl
  | cons x xs ih =>
    rw [stableSortAsc, filter_stableInsert]
    by_cases h : key x = k <;> simp [List.filter_cons, h, ih]

theorem filter_sort_values_desc (key : α → ℕ) (k : ℕ) (l : List α) :
    (sort_values_desc key l).filter (fun a => key a == k) =
      (l.filter (fun a => key a == k)).reverse := by
  rw [sort_values_desc, List.filter_reverse, filter_stableSortAsc]

theorem sublist_applyCrit [BEq β] (attr : Row → Option β)
    (crit : Option (List β)) (l : List Row) : (applyCrit attr crit l).Sublist l := by
  rw [applyCrit]
  split
  · exact List.filter_sublist l
  · exact List.Sublist.refl l

theorem mem_applyCrit [BEq β] (attr : Row → Option β) (crit : Option (List β))
    (l : List Row) (r : Row) :
    r ∈ applyCrit attr crit l ↔ r ∈ l ∧ passesCrit (attr r) crit = true := by
  rw [applyCrit, passesCrit]
  split
  · rw [List.mem_filter]
  · simp

theorem mem_filter_by_demographics (df : List Row)
    (cr : Option (List String)) (ca : Option (List Int))
    (ci : Option (List String)) (cd : Option (List String)) (r : Row) :
    r ∈ filter_by_demographics df cr ca ci cd ↔
      r ∈ df ∧ passesCrit r.region_of_residence cr = true ∧
        passesCrit r.age ca = true ∧ passesCrit r.income ci = true ∧
        passesCrit r.food_restrictions cd = true := by
  rw [filter_by_demographics, mem_applyCrit, mem_applyCrit, mem_applyCrit,
    mem_applyCrit]
  tauto

theorem sublist_filter_by_demographics (df : List Row)
    (cr : Option (List String)) (ca : Option (List Int))
    (ci : Option (List String)) (cd : Option (List String)) :
    (filter_by_demographics df cr ca ci cd).Sublist df := by
  rw [filter_by_demographics]
  exact ((sublist_applyCrit _ cd _).trans ((sublist_applyCrit _ ci _).trans
    (sublist_applyCrit _ ca _))).trans (sublist_applyCrit _ cr _)

theorem passesCrit_null [BEq β] (crit : Option (List β))
    (h : truthy crit = true) :
    passesCrit (Option.none : Option β) crit = false := by
  rw [passesCrit, if_pos h]
  rfl

theorem passesCrit_falsy [BEq β] (v : Option β) (crit : Option (List β))
    (h : truthy crit = false) : passesCrit v crit = true := by
  rw [passesCrit]
  simp [h]

theorem valid_qs_isEmpty_iff (questions : List String) :
    (valid_qs questions).isEmpty = true ↔
      ¬ ∃ q ∈ questions, q ∈ RESPONSE_COLS := by
  rw [valid_qs, List.isEmpty_iff, List.filter_eq_nil_iff]
  simp

/-! ## Claim C5 -/

/-- C5: the demographic filter returns a sub-sequence of the input holding
exactly the rows whose attribute value is a member of every supplied
non-empty criterion set; absent or empty criteria impose no restriction,
and with no effective criterion the full input is returned unchanged.
Immutability of the input and the zero-match case are inherent to the
functional embedding (the result is a fresh list; an all-excluding
criterion simply yields []). -/
theorem C5_filter_by_demographics_spec (df : List Row)
    (cr : Option (List String)) (ca : Option (List Int))
    (ci : Option (List String)) (cd : Option (List String)) :
    (filter_by_demographics df cr ca ci cd).Sublist df ∧
    (∀ r : Row, r ∈ filter_by_demographics df cr ca ci cd ↔
      r ∈ df ∧ passesCrit r.region_of_residence cr = true ∧
        passesCrit r.age ca = true ∧ passesCrit r.income ci = true ∧
        passesCrit r.food_restrictions cd = true) ∧
    ((truthy cr || truthy ca || truthy ci || truthy cd) = false →
      filter_by_demographics df cr ca ci cd = df) := by
  refine ⟨sublist_filter_by_demographics df cr ca ci cd,
    fun r => mem_filter_by_demographics df cr ca ci cd r, ?_⟩
  intro h
  rw [Bool.or_eq_false_iff, Bool.or_eq_false_iff, Bool.or_eq_false_iff] at h
  rw [filter_by_demographics, applyCrit, applyCrit, applyCrit, applyCrit]
  simp [h.1.1.1, h.1.1.2, h.1.2, h.2]

/-- Concrete participant used by the C5 witness. -/
def rowC5 : Row where
  participant_id := "7"
  age := some 31
  city_of_residence := none
  state_of_residence := none
  region_of_residence := some "South"
  income := none
  pizza_consumption := none
  food_restrictions := none
  q1_response := some "hi"
  q2_response := none
  q3_response := none
  q4_response := none
  q5_response := none

/-- C5 witness: with no supplied criterion (None for three of them and an
empty list for ages) the filter returns the full input unchanged. -/
theorem C5_filter_by_demographics_spec_witness :
    ((truthy (Option.none : Option (List String)) ||
      truthy (some ([] : List Int)) ||
      truthy (Option.none : Option (List String)) ||
      truthy (Option.none : Option (List String))) = false) ∧
    filter_by_demographics [rowC5] Option.none (some []) Option.none
      Option.none = [rowC5] :=
  ⟨by decide, (C5_filter_by_demographics_spec [rowC5] Option.none (some [])
    Option.none Option.none).2.2 (by decide)⟩

/-! ## Claim C10 -/

/-- C10: whenever a criterion is supplied and non-empty, every row whose
corresponding attribute cell is null is excluded from the result, because a
null cell is never isin any criterion list; when that criterion is absent
or empty the same rows are retained provided the other criteria pass. -/
theorem C10_null_attribute_filtering (df : List Row)
    (cr : Option (List String)) (ca : Option (List Int))
    (ci : Option (List String)) (cd : Option (List String)) (r : Row) :
    (truthy cr = true → r.region_of_residence = Option.none →
      r ∉ filter_by_demographics df cr ca ci cd) ∧
    (truthy ca = true → r.age = Option.none →
      r ∉ filter_by_demographics df cr ca ci cd) ∧
    (truthy ci = true → r.income = Option.none →
      r ∉ filter_by_demographics df cr ca ci cd) ∧
    (truthy cd = true → r.food_restrictions = Option.none →
      r ∉ filter_by_demographics df cr ca ci cd) ∧
    (truthy cr = false → r ∈ df → passesCrit r.age ca = true →
      passesCrit r.income ci = true →
      passesCrit r.food_restrictions cd = true →
      r ∈ filter_by_demographics df cr ca ci cd) ∧
    (truthy ca = false → r ∈ df →
      passesCrit r.region_of_residence cr = true →
      passesCrit r.income ci = true →
      passesCrit r.food_restrictions cd = true →
      r ∈ filter_by_demographics df cr ca ci cd) ∧
    (truthy ci = false → r ∈ df →
      passesCrit r.region_of_residence cr = true →
      passesCrit r.age ca = true →
      passesCrit r.food_restrictions cd = true →
      r ∈ filter_by_demographics df cr ca ci cd) ∧
    (truthy cd = false → r ∈ df →
      passesCrit r.region_of_residence cr = true →
      passesCrit r.age ca = true → passesCrit r.income ci = true →
      r ∈ filter_by_demographics df cr ca ci cd) := by
  refine ⟨?_, ?_, ?_, ?_, ?_, ?_, ?_, ?_⟩
  · intro ht hn hmem
    have h := (mem_filter_by_demographics df cr ca ci cd r).mp hmem
    rw [hn, passesCrit_null cr ht] at h
    exact Bool.false_ne_true h.2.1
  · intro ht hn hmem
    have h := (mem_filter_by_demographics df cr ca ci cd r).mp hmem
    rw [hn, passesCrit_null ca ht] at h
    exact Bool.false_ne_true h.2.2.1
  · intro ht hn hmem
    have h := (mem_filter_by_demographics df cr ca ci cd r).mp hmem
    rw [hn, passesCrit_null ci ht] at h
    exact Bool.false_ne_true h.2.2.2.1
  · intro ht hn hmem
    have h := (mem_filter_by_demographics df cr ca ci cd r).mp hmem
    rw [hn, passesCrit_null cd ht] at h
    exact Bool.false_ne_true h.2.2.2.2
  · intro ht hdf h1 h2 h3
    exact (mem_filter_by_demographics df cr ca ci cd r).mpr
      ⟨hdf, passesCrit_falsy _ cr ht, h1, h2, h3⟩
  · intro ht hdf h1 h2 h3
    exact (mem_filter_by_demographics df cr ca ci cd r).mpr
      ⟨hdf, h1, passesCrit_falsy _ ca ht, h2, h3⟩
  · intro ht hdf h1 h2 h3
    exact (mem_filter_by_demographics df cr ca ci cd r).mpr
      ⟨hdf, h1, h2, passesCrit_falsy _ ci ht, h3⟩
  · intro ht hdf h1 h2 h3
    exact (mem_filter_by_demographics df cr ca ci cd r).mpr
      ⟨hdf, h1, h2, h3, passesCrit_falsy _ cd ht⟩

/-- Concrete participant with a null region cell, for the C10 witness. -/
def rowC10 : Row where
  participant_id := "9"
  age := some 40
  city_of_residence := none
  state_of_residence := none
  region_of_residence := none
  income := none
  pizza_consumption := none
  food_restrictions := none
  q1_response := some "hi"
  q2_response := none
  q3_response := none
  q4_response := none
  q5_response := none

/-- C10 witness: the null-region participant is excluded once a non-empty
region criterion is supplied, and retained when no criterion is supplied. -/
theorem C10_null_attribute_filtering_witness :
    rowC10 ∉ filter_by_demographics [rowC10] (some ["Northeast"]) Option.none
      Option.none Option.none ∧
    rowC10 ∈ filter_by_demographics [rowC10] Option.none Option.none
      Option.none Option.none :=
  ⟨(C10_null_attribute_filtering [rowC10] (some ["Northeast"]) Option.none
      Option.none Option.none rowC10).1 (by decide) (by decide),
   (C10_null_attribute_filtering [rowC10] Option.none Option.none Option.none
      Option.none rowC10).2.2.2.2.1 (by decide) (by decide) (by decide)
      (by decide) (by decide)⟩

/-! ## Claim C3 -/

/-- Concrete participant used by the C3 counterexample. -/
def rowC3 : Row where
  participant_id := "3"
  age := none
  city_of_residence := none
  state_of_residence := none
  region_of_residence := none
  income := none
  pizza_consumption := none
  food_restrictions := none
  q1_response := some "text"
  q2_response := none
  q3_response := none
  q4_response := none
  q5_response := none

/-- C3 (counterexample): a selection containing the unknown field name
"bogus" alongside one known response field succeeds instead of failing,
refuting the claim that any selection containing a name outside the five
known response fields fails with a validation error. -/
theorem C3_unknown_name_accepted :
    ¬ ("bogus" ∈ RESPONSE_COLS) ∧
    (build_text_df [rowC3] ["q1_response", "bogus"]).isOk = true := by
  constructor
  · decide
  · decide

/-- C3 (amended): build_text_df fails with the validation error exactly when
the selection contains no known response-field name (in particular when it
is empty); names outside the five known response fields are silently
dropped, and the call succeeds whenever at least one selected name is a
known response field. -/
theorem C3_validation_iff (df : List Row) (questions : List String) :
    ((build_text_df df questions).isOk = true ↔
      ∃ q ∈ questions, q ∈ RESPONSE_COLS) ∧
    ((¬ ∃ q ∈ questions, q ∈ RESPONSE_COLS) →
      build_text_df df questions =
        Except.error "No valid question columns selected.") := by
  have h := valid_qs_isEmpty_iff questions
  constructor
  · rw [build_text_df]
    by_cases hq : (valid_qs questions).isEmpty = true
    · rw [if_pos hq]
      exact iff_of_false (by simp [Except.isOk, Except.toBool]) (h.mp hq)
    · rw [if_neg hq]
      refine iff_of_true (by simp [Except.isOk, Except.toBool]) ?_
      by_contra hc
      exact hq (h.mpr hc)
  · intro hc
    rw [build_text_df, if_pos (h.mpr hc)]

/-- C3 witness: the empty selection is rejected with the validation error. -/
theorem C3_validation_iff_witness :
    build_text_df [rowC3] [] =
      Except.error "No valid question columns selected." :=
  (C3_validation_iff [rowC3] []).2 (by simp)

/-! ## Claim C4 -/

/-- C4: under a valid selection, the assembler succeeds; every output row
carries the text assembled from its own demographics by assembleText (the
trimmed single-space join of the non-null, non-blank selected cells in
selection order) and that text is non-empty; the output demographics form a
sub-sequence of the input (no duplication, no reordering); and every input
row whose assembled text is non-empty does appear — no other rows are
dropped. -/
theorem C4_assembled_rows (df : List Row) (questions : List String)
    (h : valid_qs questions ≠ []) :
    ∃ out, build_text_df df questions = Except.ok out ∧
      (out.map (fun d => d.demo)).Sublist df ∧
      (∀ d ∈ out, d.text = assembleText d.demo (valid_qs questions) ∧
        d.text ≠ "") ∧
      (∀ r ∈ df, assembleText r (valid_qs questions) ≠ "" →
        ({ demo := r, text := assembleText r (valid_qs questions) } :
          TextRow) ∈ out) := by
  have hne : (valid_qs questions).isEmpty ≠ true := by
    simpa [List.isEmpty_iff] using h
  refine ⟨(df.map (fun r =>
      (⟨r, assembleText r (valid_qs questions)⟩ : TextRow))).filter
      (fun d => d.text != ""), ?_, ?_, ?_, ?_⟩
  · rw [build_text_df, if_neg hne]
  · have h1 := (List.filter_sublist (p := fun d => d.text != "")
      (df.map (fun r =>
        (⟨r, assembleText r (valid_qs questions)⟩ : TextRow)))).map
      (fun d => d.demo)
    rw [List.map_map] at h1
    have h2 : List.map ((fun d : TextRow => d.demo) ∘ fun r =>
        ({ demo := r, text := assembleText r (valid_qs questions) } :
          TextRow)) df = df :=
      List.map_id df
    rw [h2] at h1
    exact h1
  · intro d hd
    rw [List.mem_filter] at hd
    rcases List.mem_map.mp hd.1 with ⟨r, _, rfl⟩
    exact ⟨rfl, by simpa using hd.2⟩
  · intro r hr htext
    rw [List.mem_filter]
    exact ⟨List.mem_map_of_mem _ hr, by simpa using htext⟩

/-- Participant of the C4 scenario whose q1 is blank and q2 is "Loved it". -/
def rowC4a : Row where
  participant_id := "1"
  age := none
  city_of_residence := none
  state_of_residence := none
  region_of_residence := none
  income := none
  pizza_consumption := none
  food_restrictions := none
  q1_response := some "   "
  q2_response := some "Loved it"
  q3_response := none
  q4_response := none
  q5_response := none

/-- Participant of the C4 scenario whose q1 and q2 are both blank. -/
def rowC4b : Row where
  participant_id := "2"
  age := none
  city_of_residence := none
  state_of_residence := none
  region_of_residence := none
  income := none
  pizza_consumption := none
  food_restrictions := none
  q1_response := some ""
  q2_response := some "  "
  q3_response := none
  q4_response := none
  q5_response := none

/-- C4 witness: the q1+q2 scenario — the blank-q1 row assembles to
"Loved it" and the all-blank row is dropped. -/
theorem C4_assembled_rows_witness :
    valid_qs ["q1_response", "q2_response"] ≠ [] ∧
    (∃ out, build_text_df [rowC4a, rowC4b] ["q1_response", "q2_response"] =
        Except.ok out ∧
      (out.map (fun d => d.demo)).Sublist [rowC4a, rowC4b] ∧
      (∀ d ∈ out, d.text = assembleText d.demo
          (valid_qs ["q1_response", "q2_response"]) ∧ d.text ≠ "") ∧
      (∀ r ∈ [rowC4a, rowC4b], assembleText r
          (valid_qs ["q1_response", "q2_response"]) ≠ "" →
        ({ demo := r, text := assembleText r
            (valid_qs ["q1_response", "q2_response"]) } : TextRow) ∈ out)) ∧
    build_text_df [rowC4a, rowC4b] ["q1_response", "q2_response"] =
      Except.ok [{ demo := rowC4a, text := "Loved it" }] :=
  ⟨by decide,
   C4_assembled_rows [rowC4a, rowC4b] ["q1_response", "q2_response"]
     (by decide),
   by rfl⟩

/-! ## Claim C7 -/

/-- C7 (counterexample): a matching Score Record whose highlight is the
empty string (non-null) is selected as an excerpt, refuting the claim that
excerpts are drawn only from rows with non-empty highlight text — dropna
removes nulls but keeps empty strings. -/
theorem C7_empty_highlight_selected :
    (_build_export_from_long [⟨"1", "c1", "C", Cell.num (mkRat 1 1), some ""⟩]
      [⟨"c1", "C", "", Option.none⟩] (mkRat 3 4)).map
      (fun r => r.highlights) = [[""]] ∧
    ¬ (∀ h ∈ conceptHighlights [⟨"1", "c1", "C", Cell.num (mkRat 1 1),
        some ""⟩] (mkRat 3 4) "c1", h ≠ "") := by
  refine ⟨by decide, ?_⟩
  intro hall
  exact hall "" (by decide) rfl

/-- C7 (amended): each concept summary lists at most three highlights,
drawn in input order (a prefix of the matching rows with nulls dropped)
from that concept's matching Score Records, and drawn only from rows whose
highlight is non-null — an empty-string highlight may be selected. -/
theorem C7_highlights_shape (sdf : List ScoreRec) (t : ℚ) (c : ConceptMeta)
    (n_docs : ℕ) :
    (conceptRow sdf t n_docs c).highlights = conceptHighlights sdf t c.cid ∧
    (conceptHighlights sdf t c.cid).length ≤ 3 ∧
    (conceptHighlights sdf t c.cid).Sublist
      ((matchingRecs sdf t c.cid).filterMap (fun r => r.highlight)) ∧
    (∀ h ∈ conceptHighlights sdf t c.cid,
      ∃ r ∈ matchingRecs sdf t c.cid, r.highlight = some h) := by
  refine ⟨rfl, ?_, ?_, ?_⟩
  · rw [conceptHighlights]
    exact List.length_take_le 3 _
  · exact List.take_sublist 3 _
  · intro h hh
    have hmem : h ∈ (matchingRecs sdf t c.cid).filterMap
        (fun r => r.highlight) :=
      (List.take_sublist 3 _).subset hh
    rcases List.mem_filterMap.mp hmem with ⟨r, hr, hsome⟩
    exact ⟨r, hr, hsome⟩

/-- Concept of the C7 witness. -/
def cC7w : ConceptMeta := ⟨"c1", "C", "", Option.none⟩

/-- Matching record with highlight "great", for the C7 witness. -/
def rC7w : ScoreRec := ⟨"1", "c1", "C", Cell.num (mkRat 1 1), some "great"⟩

/-- C7 witness: the selected excerpt "great" indeed originates in a
matching record with that non-null highlight. -/
theorem C7_highlights_shape_witness :
    ∃ r ∈ matchingRecs [rC7w] (mkRat 3 4) "c1", r.highlight = some "great" :=
  (C7_highlights_shape [rC7w] (mkRat 3 4) cC7w 1).2.2.2 "great" (by decide)

/-! ## Claim C9 -/

/-- C9: a Score Record whose score cell does not parse as a number is
treated as a non-match without raising — to_numeric coerces it to NaN and
the comparison against the threshold is False — so it neither belongs to
any concept matching set, nor affects any match count (the prevalence
numerator), nor any highlight selection: removing every unparseable-score
record leaves all of those unchanged. -/
theorem C9_unparseable_score_nonmatch (t : ℚ) (sdf : List ScoreRec)
    (r : ScoreRec) (hr : toNumericCell r.score = Option.none) :
    is_match t r.score = false ∧
    (∀ cid, r ∉ matchingRecs sdf t cid) ∧
    (∀ cid, matchingRecs (sdf.filter
      (fun x => (toNumericCell x.score).isSome)) t cid =
      matchingRecs sdf t cid) ∧
    (∀ cid, conceptMatchCount (sdf.filter
      (fun x => (toNumericCell x.score).isSome)) t cid =
      conceptMatchCount sdf t cid) ∧
    (∀ cid, conceptHighlights (sdf.filter
      (fun x => (toNumericCell x.score).isSome)) t cid =
      conceptHighlights sdf t cid) := by
  have hmatch : is_match t r.score = false := by
    rw [is_match, hr]
  have hkey : ∀ cid, matchingRecs (sdf.filter
      (fun x => (toNumericCell x.score).isSome)) t cid =
      matchingRecs sdf t cid := by
    intro cid
    rw [matchingRecs, matchingRecs, conceptSub, conceptSub,
      List.filter_filter, List.filter_filter, List.filter_filter]
    apply List.filter_congr
    intro x _
    cases hx : toNumericCell x.score with
    | none => simp [is_match, hx]
    | some q => simp [is_match, hx]
  refine ⟨hmatch, ?_, hkey, ?_, ?_⟩
  · intro cid hmem
    rw [matchingRecs, List.mem_filter] at hmem
    rw [hmatch] at hmem
    exact Bool.false_ne_true hmem.2
  · intro cid
    rw [conceptMatchCount, conceptMatchCount, hkey cid]
  · intro cid
    rw [conceptHighlights, conceptHighlights, hkey cid]

/-- Score Record with the unparseable score string "n/a", for the C9
witness. -/
def rC9 : ScoreRec := ⟨"1", "c1", "C", Cell.str "n/a", Option.none⟩

/-- C9 witness: the "n/a" score coerces to NaN and the record is a
non-match at the 0.75 threshold. -/
theorem C9_unparseable_score_nonmatch_witness :
    toNumericCell rC9.score = Option.none ∧
    is_match (mkRat 3 4) rC9.score = false :=
  ⟨by decide,
   (C9_unparseable_score_nonmatch (mkRat 3 4) [rC9] rC9 (by decide)).1⟩

/-! ## Claim C2 -/

/-- Score table of the C2 counterexample: one document scoring 0.2 on one
concept. -/
def sdfC2x : List ScoreRec := [⟨"1", "c1", "C", Cell.num (mkRat 1 5),
  Option.none⟩]

/-- C2 (counterexample): with one document in the score table and no match,
prevalence is 0 while the distinct-document count is 1 — so prevalence 0
does not hold exactly when the table has zero documents, only whenever it
does. -/
theorem C2_prevalence_zero_with_docs :
    (_build_export_from_long sdfC2x [⟨"c1", "C", "", Option.none⟩]
      (mkRat 3 4)).map (fun r => r.prevalence) = [0] ∧
    nDocs sdfC2x = 1 := by
  constructor
  · decide
  · decide

/-- C2 (amended): for every concept of the metadata mapping, the export
holds its row, whose n_matches is the distinct-document count over the
records clearing the threshold and whose prevalence is n_matches divided by
the distinct-document count of the score table when the latter is non-zero,
and 0 — not a fault or infinity — when it is zero; prevalence 0 therefore
holds whenever the table is empty, but also with documents present and no
match. -/
theorem C2_concept_prevalence (sdf : List ScoreRec)
    (concepts : List ConceptMeta) (t : ℚ) (c : ConceptMeta)
    (hc : c ∈ concepts) :
    conceptRow sdf t (nDocs sdf) c ∈ _build_export_from_long sdf concepts t ∧
    (conceptRow sdf t (nDocs sdf) c).n_matches = conceptMatchCount sdf t c.cid ∧
    (conceptRow sdf t (nDocs sdf) c).prevalence =
      (if nDocs sdf = 0 then 0
       else (conceptMatchCount sdf t c.cid : ℚ) / nDocs sdf) ∧
    (nDocs sdf = 0 → (conceptRow sdf t (nDocs sdf) c).prevalence = 0) := by
  refine ⟨?_, rfl, ?_, ?_⟩
  · rw [_build_export_from_long, mem_sort_values_desc]
    exact List.mem_map_of_mem _ hc
  · show (if nDocs sdf = 0 then 0 else mkRat (conceptMatchCount sdf t c.cid)
      (nDocs sdf)) = _
    by_cases h : nDocs sdf = 0
    · rw [if_pos h, if_pos h]
    · rw [if_neg h, if_neg h, mkRat_natCast_div]
  · intro h
    show (if nDocs sdf = 0 then 0 else mkRat (conceptMatchCount sdf t c.cid)
      (nDocs sdf)) = 0
    rw [if_pos h]

/-- Score table of the C2 witness: one document scoring 0.9. -/
def sdfC2w : List ScoreRec := [⟨"1", "c1", "C", Cell.num (mkRat 9 10),
  Option.none⟩]

/-- Concept of the C2 witness. -/
def cC2w : ConceptMeta := ⟨"c1", "C", "", Option.none⟩

/-- C2 witness: the prevalence formula instantiated on a one-document,
one-match table. -/
theorem C2_concept_prevalence_witness :
    cC2w ∈ [cC2w] ∧
    (conceptRow sdfC2w (mkRat 3 4) (nDocs sdfC2w) cC2w).prevalence =
      (if nDocs sdfC2w = 0 then 0
       else (conceptMatchCount sdfC2w (mkRat 3 4) cC2w.cid : ℚ) /
         nDocs sdfC2w) :=
  ⟨by decide,
   (C2_concept_prevalence sdfC2w [cC2w] (mkRat 3 4) cC2w (by decide)).2.2.1⟩

/-! ## Claim C6 -/

/-- First concept of the C6 counterexample. -/
def cC6A : ConceptMeta := ⟨"cA", "A", "", Option.none⟩

/-- Second concept of the C6 counterexample. -/
def cC6B : ConceptMeta := ⟨"cB", "B", "", Option.none⟩

/-- C6 (counterexample): two concepts with equal match counts (both zero,
over an empty score table) come out in the order B, A — the reverse of
their input order A, B — because the pandas descending sort reverses a
stable ascending sort; this refutes input-order tie-breaking. -/
theorem C6_tie_order_reversed :
    (_build_export_from_long [] [cC6A, cC6B] (mkRat 3 4)).map
      (fun r => r.concept) = ["B", "A"] ∧
    (_build_export_from_long [] [cC6A, cC6B] (mkRat 3 4)).map
      (fun r => r.n_matches) = [0, 0] := by
  constructor
  · decide
  · decide

/-- C6 (amended): the export is a permutation of the per-concept rows,
sorted by descending match count, and concepts with equal match counts
appear in the reverse of their input order (for every count value, the rows
carrying it are the reversal of the corresponding input-order rows). -/
theorem C6_export_order (sdf : List ScoreRec) (concepts : List ConceptMeta)
    (t : ℚ) :
    List.Perm (_build_export_from_long sdf concepts t)
      (concepts.map (conceptRow sdf t (nDocs sdf))) ∧
    (_build_export_from_long sdf concepts t).Pairwise
      (fun a b => b.n_matches ≤ a.n_matches) ∧
    (∀ k : ℕ, (_build_export_from_long sdf concepts t).filter
        (fun r => r.n_matches == k) =
      ((concepts.map (conceptRow sdf t (nDocs sdf))).filter
        (fun r => r.n_matches == k)).reverse) :=
  ⟨perm_sort_values_desc _ _, pairwise_sort_values_desc _ _,
   fun k => filter_sort_values_desc _ k _⟩

/-! ## Claim C8 -/

/-- The stringified-list example of the claim, built character-wise so the
single quotes appear verbatim: the Python string
"[ <q>Great crust<q>, <q>Loved the sauce<q> ]" without the spaces around
the brackets, where <q> is the single-quote character. -/
def exC8list : String :=
  String.mk ('[' :: sq :: ("Great crust".toList ++ (sq :: ',' :: ' ' :: sq ::
    ("Loved the sauce".toList ++ [sq, ']']))))

/-- C8 (counterexample): the one-character freeform text "-" normalizes to
a list containing the empty string — the line passes the blank filter but
is then stripped to nothing — refuting the claim that every returned entry
is non-empty. -/
theorem C8_bullet_line_empty_string :
    _to_list_like (HVal.str "-") = [""] ∧
    ¬ (∀ h ∈ _to_list_like (HVal.str "-"), h ≠ "") := by
  refine ⟨by decide, ?_⟩
  intro hall
  exact hall "" (by decide) rfl

/-- C8 (amended): highlight normalization always yields at most 3 entries,
None yields [], the two concrete examples of the claim normalize as stated,
and in the genuine-list and structured-parse branches every entry is the
non-blank strip of a source element; only the line-splitting fallback can
emit an empty entry, when a kept line consists entirely of bullet
characters. -/
theorem C8_to_list_like_shape :
    (∀ v, (_to_list_like v).length ≤ 3) ∧
    _to_list_like HVal.none = [] ∧
    _to_list_like (HVal.str exC8list) = ["Great crust", "Loved the sauce"] ∧
    _to_list_like (HVal.str "- crisp crust\n- tangy sauce\n- fresh basil") =
      ["crisp crust", "tangy sauce", "fresh basil"] ∧
    (∀ xs, ∀ h ∈ _to_list_like (HVal.list xs),
      h ≠ "" ∧ ∃ x ∈ xs, h = pyStrip x) ∧
    (∀ s xs, literalEvalStrList (pyStrip s) = some xs →
      ∀ h ∈ _to_list_like (HVal.str s),
        h ≠ "" ∧ ∃ x ∈ xs, h = pyStrip x) := by
  have hclean : ∀ xs, ∀ h ∈ cleanList xs, h ≠ "" ∧ ∃ x ∈ xs, h = pyStrip x := by
    intro xs h hh
    have hmem : h ∈ (xs.map pyStrip).filter (fun s => s != "") :=
      (List.take_sublist 3 _).subset hh
    rw [List.mem_filter] at hmem
    rcases List.mem_map.mp hmem.1 with ⟨x, hx, rfl⟩
    exact ⟨by simpa using hmem.2, x, hx, rfl⟩
  refine ⟨?_, rfl, by decide, by decide, ?_, ?_⟩
  · intro v
    cases v with
    | none => simp [_to_list_like]
    | list xs =>
      rw [_to_list_like, cleanList]
      exact List.length_take_le 3 _
    | str s =>
      rw [_to_list_like]
      cases heval : literalEvalStrList (pyStrip s) with
      | none =>
        simp only [heval]
        exact List.length_take_le 3 _
      | some xs =>
        simp only [heval, cleanList]
        exact List.length_take_le 3 _
  · intro xs h hh
    rw [_to_list_like] at hh
    exact hclean xs h hh
  · intro s xs heval h hh
    rw [_to_list_like, heval] at hh
    exact hclean xs h hh

/-- C8 witness: a padded genuine list element is returned stripped and
non-empty. -/
theorem C8_to_list_like_shape_witness :
    "a" ≠ "" ∧ ∃ x ∈ ["  a  "], ("a" : String) = pyStrip x :=
  C8_to_list_like_shape.2.2.2.2.1 ["  a  "] "a" (by decide)

/-! ## Claim C1 -/

/-- C1 (amended): once the matched frame is non-empty, then for every
concept of the rendering order with at least one matching document (the
skip of the continue statement), the breakdown holds a table in which every
region present in the slice appears, with the distinct matched-document
count of that region (zero-filled when none match there), the region total
as denominator — always at least 1 since region totals are computed from
the same non-empty region groups — and prevalence equal to exactly match
count / region total, never infinite and never NaN.  Concepts with no
matching document are omitted, as is the whole breakdown when no concept
has matches. -/
theorem C1_regional_rows (sdf : List ScoreRec) (t : ℚ)
    (df_text : List TextRow) (concept_order : List String) (cname : String)
    (h1 : cname ∈ concept_order)
    (h2 : (matchedFrame sdf t (region_map df_text)).filter
      (fun x => x.concept_name == cname) ≠ []) :
    ∃ rows, (cname, rows) ∈ regional_breakdown sdf t df_text concept_order ∧
      ∀ reg ∈ regionKeys (region_map df_text),
        ∃ row ∈ rows, row.region = reg ∧
          row.n_matches = ((((matchedFrame sdf t (region_map df_text)).filter
            (fun x => x.concept_name == cname)).filter
            (fun m => m.region == reg)).map (fun m => m.doc_id)).dedup.length ∧
          row.n_texts = (((region_map df_text).filter
            (fun p => p.2 == reg)).map (fun p => p.1)).dedup.length ∧
          1 ≤ row.n_texts ∧
          row.prevalence = some ((row.n_matches : ℚ) / row.n_texts) := by
  have hsub : ¬ ((matchedFrame sdf t (region_map df_text)).filter
      (fun x => x.concept_name == cname)).isEmpty = true := by
    rw [List.isEmpty_iff]
    exact h2
  have hm : ¬ (matchedFrame sdf t (region_map df_text)).isEmpty = true := by
    rw [List.isEmpty_iff]
    intro hmm
    exact h2 (by rw [hmm]; rfl)
  refine ⟨by_region ((matchedFrame sdf t (region_map df_text)).filter
      (fun x => x.concept_name == cname))
      (totals_by_region (region_map df_text)), ?_, ?_⟩
  · rw [regional_breakdown, if_neg hm]
    refine List.mem_filterMap.mpr ⟨cname, h1, ?_⟩
    rw [if_neg hsub]
  · intro reg hreg
    have htot : (reg, (((region_map df_text).filter
        (fun p => p.2 == reg)).map (fun p => p.1)).dedup.length) ∈
        totals_by_region (region_map df_text) := by
      rw [totals_by_region]
      exact List.mem_map_of_mem _ hreg
    have hpos : 1 ≤ (((region_map df_text).filter
        (fun p => p.2 == reg)).map (fun p => p.1)).dedup.length := by
      rw [regionKeys] at hreg
      rcases List.mem_map.mp (List.mem_dedup.mp hreg) with ⟨p, hp, hpe⟩
      have hpf : p ∈ (region_map df_text).filter (fun p => p.2 == reg) := by
        rw [List.mem_filter]
        refine ⟨hp, ?_⟩
        simp [hpe]
      exact List.length_pos_of_mem (List.mem_dedup.mpr
        (List.mem_map_of_mem (fun p => p.1) hpf))
    have hntne : (((region_map df_text).filter
        (fun p => p.2 == reg)).map (fun p => p.1)).dedup.length ≠ 0 := by
      omega
    refine ⟨⟨reg,
      ((((matchedFrame sdf t (region_map df_text)).filter
        (fun x => x.concept_name == cname)).filter
        (fun m => m.region == reg)).map (fun m => m.doc_id)).dedup.length,
      (((region_map df_text).filter (fun p => p.2 == reg)).map
        (fun p => p.1)).dedup.length,
      prevOf ((((matchedFrame sdf t (region_map df_text)).filter
        (fun x => x.concept_name == cname)).filter
        (fun m => m.region == reg)).map (fun m => m.doc_id)).dedup.length
        ((((region_map df_text).filter (fun p => p.2 == reg)).map
          (fun p => p.1)).dedup.length)⟩, ?_, rfl, rfl, rfl, hpos, ?_⟩
    · rw [by_region, mem_sort_values_desc]
      exact List.mem_map_of_mem _ htot
    · show prevOf _ _ = _
      rw [prevOf, if_neg hntne, mkRat_natCast_div]

/-- Matching record of concept A, for the C1 counterexample and witness. -/
def rC1A : ScoreRec := ⟨"1", "cA", "A", Cell.num (mkRat 9 10), Option.none⟩

/-- Non-matching record of concept B, for the C1 counterexample and
witness. -/
def rC1B : ScoreRec := ⟨"1", "cB", "B", Cell.num (mkRat 1 10), Option.none⟩

/-- Concept A metadata of the C1 counterexample. -/
def cC1A : ConceptMeta := ⟨"cA", "A", "", Option.none⟩

/-- Concept B metadata of the C1 counterexample. -/
def cC1B : ConceptMeta := ⟨"cB", "B", "", Option.none⟩

/-- Northeast participant of the C1 counterexample. -/
def rowC1 : Row where
  participant_id := "1"
  age := none
  city_of_residence := none
  state_of_residence := none
  region_of_residence := some "Northeast"
  income := none
  pizza_consumption := none
  food_restrictions := none
  q1_response := some "x"
  q2_response := none
  q3_response := none
  q4_response := none
  q5_response := none

/-- Text frame of the C1 counterexample: the single Northeast document. -/
def dtextC1 : List TextRow := [⟨rowC1, "x"⟩]

/-- Rendering order of the C1 counterexample, taken from the export frame
as app.py does. -/
def orderC1 : List String :=
  (_build_export_from_long [rC1A, rC1B] [cC1A, cC1B] (mkRat 3 4)).map
    (fun r => r.concept)

/-- C1 (counterexample): concept B has zero matching documents overall, and
although B is in the rendering order and region Northeast is present in the
demographic data of the slice, the regional breakdown has no entry at all
for B — the (B, Northeast) pair the claim requires is absent, because the
continue statement skips concepts with an empty matched sub-frame. -/
theorem C1_unmatched_concept_missing :
    orderC1 = ["A", "B"] ∧
    "Northeast" ∈ regionKeys (region_map dtextC1) ∧
    (regional_breakdown [rC1A, rC1B] (mkRat 3 4) dtextC1 orderC1).map
      Prod.fst = ["A"] ∧
    "B" ∉ (regional_breakdown [rC1A, rC1B] (mkRat 3 4) dtextC1 orderC1).map
      Prod.fst := by
  refine ⟨by decide, by decide, by decide, by decide⟩

/-- C1 witness: concept A, which has a matching Northeast document, does
receive a breakdown table with a Northeast row whose region total is
positive. -/
theorem C1_regional_rows_witness :
    ∃ rows, ("A", rows) ∈ regional_breakdown [rC1A, rC1B] (mkRat 3 4)
      dtextC1 orderC1 ∧
      ∃ row ∈ rows, row.region = "Northeast" ∧ 1 ≤ row.n_texts := by
  obtain ⟨rows, hmem, hall⟩ := C1_regional_rows [rC1A, rC1B] (mkRat 3 4)
    dtextC1 orderC1 "A" (by decide) (by decide)
  obtain ⟨row, hrow, hregion, _, _, hpos, _⟩ := hall "Northeast" (by decide)
  exact ⟨rows, hmem, row, hrow, hregion, hpos⟩

end Pizza
